import Mathlib

/-!
Shallow embedding of the resilient-dispatch core of
`lucas-de-lima/rinha-de-backend-2025`.

The repository contains several near-identical service variants.  The
definitions below are translated from:

* `src/cmd/payment-orchestrator/main.go`, first file in the bundle
  (the payment orchestrator listening on :8444) — circuit breaker with
  threshold 10 and 30 s cooldown, `BRUTOConnectionPool` over
  `*http.Client`, the always-true health stub, and `handlePayments`;
* `src/unnamed/part_003`, first file (the API gateway listening on
  :9999) — circuit breaker with threshold 3 and 10 s cooldown,
  `Gateway.callPaymentOrchestratorBRUTO` and `Gateway.handlePayments`;
* `src/unnamed/part_003`, second file (the API Gateway BRUTO) — the
  rate-limited `checkPaymentProcessorHealth`;
* `src/cmd/load-balancer/main.go` — `LoadBalancer.ServeHTTP`,
  `getNextBackend`, and the `ReverseProxy` wired in `main`.

Wall-clock instants are modelled as natural numbers (seconds).  Go
`time.Since(t) > d` becomes `d < now - t` on `Nat`; when `now < t` both
the Go expression (negative duration) and the truncated `Nat`
subtraction yield `false`, so the translation agrees on all inputs.
-/

namespace Rinha

/-- Model of `HTTPPaymentResponse` from the Go sources: the `ID`,
`Status`, `Message` payload produced by the payment strategies. -/
structure HTTPPaymentResponse where
  id : String
  status : String
  message : String
deriving DecidableEq, Repr

/-- An HTTP response as seen by the caller: status code plus the exact
body bytes written. -/
structure HttpResponse where
  status : Nat
  body : String
deriving DecidableEq, Repr

/-! ## Circuit breaker — orchestrator variant
`src/cmd/payment-orchestrator/main.go` lines 61-74 and 143-179:
three states, failure threshold 10, cooldown `30 * time.Second`. -/

inductive CircuitState where
  | CLOSED
  | OPEN
  | HALF_OPEN
deriving DecidableEq, Repr

structure CircuitBreaker where
  failures : Nat
  lastFailure : Nat
  state : CircuitState
deriving DecidableEq, Repr

/-- The breaker every service starts with: zero failures, zero time
stamp, `CLOSED` (package-level initializer in each Go file). -/
def CircuitBreaker.initial : CircuitBreaker :=
  { failures := 0, lastFailure := 0, state := .CLOSED }

/-- Model of `(*CircuitBreaker).canExecute` of the orchestrator.  A
returning call yields `some` of the boolean answer together with the
breaker afterwards.  In the `OPEN` branch with the 30 s cooldown
elapsed, the source (main.go lines 151-155) calls `cb.mux.Lock()` while
the same goroutine still holds `cb.mux.RLock()` (the deferred `RUnlock`
only runs at return): the write lock waits for the reader count to
drop, which the blocked caller can never make happen — a guaranteed
self-deadlock.  The call never returns on that path and the
`cb.state = HALF_OPEN` write on line 153 is unreachable; that path is
modelled as `none`.  Every path that does return leaves the breaker
unchanged. -/
def CircuitBreaker.canExecute (cb : CircuitBreaker) (now : Nat) :
    Option (Bool × CircuitBreaker) :=
  match cb.state with
  | .CLOSED => some (true, cb)
  | .OPEN =>
      if 30 < now - cb.lastFailure then
        none
      else
        some (false, cb)
  | .HALF_OPEN => some (true, cb)

/-- Model of `(*CircuitBreaker).recordSuccess` of the orchestrator:
zero the counter and force `CLOSED`. -/
def CircuitBreaker.recordSuccess (cb : CircuitBreaker) : CircuitBreaker :=
  { cb with failures := 0, state := .CLOSED }

/-- Model of `(*CircuitBreaker).recordFailure` of the orchestrator:
increment, stamp `lastFailure`, and open once the count reaches 10
(`cb.failures >= 10` in the source). -/
def CircuitBreaker.recordFailure (cb : CircuitBreaker) (now : Nat) :
    CircuitBreaker :=
  let f := cb.failures + 1
  { failures := f
    lastFailure := now
    state := if 10 ≤ f then .OPEN else cb.state }

/-! ## Circuit breaker — gateway variant
`src/unnamed/part_003` first file, lines 123-159: same shape but
threshold 3 and cooldown `10 * time.Second`. -/

/-- Model of `canExecute` of the gateway breaker (cooldown 10 s).  It
has the same `Lock`-under-`RLock` self-deadlock as the orchestrator's
(part_003 lines 131-135), so the Open-with-elapsed-cooldown path never
returns and is modelled as `none`. -/
def CircuitBreaker.gwCanExecute (cb : CircuitBreaker) (now : Nat) :
    Option (Bool × CircuitBreaker) :=
  match cb.state with
  | .CLOSED => some (true, cb)
  | .OPEN =>
      if 10 < now - cb.lastFailure then
        none
      else
        some (false, cb)
  | .HALF_OPEN => some (true, cb)

/-- Model of `recordSuccess` of the gateway breaker (identical text to
the orchestrator's). -/
def CircuitBreaker.gwRecordSuccess (cb : CircuitBreaker) : CircuitBreaker :=
  { cb with failures := 0, state := .CLOSED }

/-- Model of `recordFailure` of the gateway breaker: threshold 3
(`cb.failures >= 3` in the source). -/
def CircuitBreaker.gwRecordFailure (cb : CircuitBreaker) (now : Nat) :
    CircuitBreaker :=
  let f := cb.failures + 1
  { failures := f
    lastFailure := now
    state := if 3 ≤ f then .OPEN else cb.state }

/-! ## Connection pools -/

/-- Model of `BRUTOConnectionPool` of the orchestrator
(`src/cmd/payment-orchestrator/main.go` lines 77-81): a slice of client
handles and a rotating cursor.  The handle type is opaque here — only
handle identity matters to the claims. -/
structure BRUTOConnectionPool (Client : Type) where
  connections : List Client
  current : Nat

/-- Model of `(*BRUTOConnectionPool).GetConnection` of the orchestrator
(lines 83-105).  When the slice is empty the Go code builds a fresh
`http.Client` and appends it; `fresh` stands for that newly constructed
handle.  Otherwise it returns `connections[current]` and advances the
cursor modulo the slice length.  The out-of-range read that Go would
panic on cannot occur from the package initializer (`current = 0`,
empty slice), so `getD` with the fresh handle as default is only a
totalization. -/
def BRUTOConnectionPool.GetConnection {Client : Type}
    (p : BRUTOConnectionPool Client) (fresh : Client) :
    Client × BRUTOConnectionPool Client :=
  if p.connections.isEmpty then
    (fresh, { p with connections := p.connections ++ [fresh] })
  else
    let conn := p.connections.getD p.current fresh
    (conn, { p with current := (p.current + 1) % p.connections.length })

/-- Pool as created by the package-level initializer: empty slice,
cursor 0. -/
def BRUTOConnectionPool.initial (Client : Type) : BRUTOConnectionPool Client :=
  { connections := [], current := 0 }

/-- Iterate `GetConnection`; the list supplies the fresh handle each
call would construct if it found the pool empty.  Returns the handles
handed out, in order, and the final pool. -/
def BRUTOConnectionPool.run {Client : Type}
    (p : BRUTOConnectionPool Client) (freshes : List Client) :
    List Client × BRUTOConnectionPool Client :=
  match freshes with
  | [] => ([], p)
  | f :: rest =>
      let (c, p1) := p.GetConnection f
      let (cs, p2) := p1.run rest
      (c :: cs, p2)

/-- Model of the gateway's grpc `BRUTOConnectionPool.GetConnection`
(`src/unnamed/part_003` lines 76-85): returns `nil` when the slice is
empty instead of creating a handle, otherwise rotates. -/
def GrpcPool.GetConnection (p : BRUTOConnectionPool Nat) :
    Option Nat × BRUTOConnectionPool Nat :=
  if p.connections.isEmpty then
    (none, p)
  else
    let conn := p.connections.getD p.current 0
    (some conn, { p with current := (p.current + 1) % p.connections.length })

/-! ## Health checks -/

/-- Model of the orchestrator's `checkPaymentProcessorHealth`
(`src/cmd/payment-orchestrator/main.go` lines 224-227): the body is
`return true` — no probe, no cache, no I/O ever. -/
def checkPaymentProcessorHealth (_processor : String) : Bool :=
  true

/-- Outcome of one real health probe, as distinguished by the Go code
(`src/unnamed/part_003` lines 848-874): request construction or
transport failure, or an HTTP response carrying a status code and, when
the body decodes as `\x7b"failing": bool\x7d`, that boolean. -/
inductive ProbeOutcome where
  | reqError
  | transportError
  | response (code : Nat) (failing : Option Bool)
deriving DecidableEq, Repr

/-- Boolean the probe paths produce: `!failing` after a decodable 200,
`false` on every error path (request error, transport error, non-200
status, undecodable body).  Each path also writes this boolean into the
cache. -/
def probeResult (o : ProbeOutcome) : Bool :=
  match o with
  | .response 200 (some failing) => !failing
  | _ => false

/-- Assoc-list update standing for a Go map assignment `m[k] = v`. -/
def mapSet {β : Type} (l : List (String × β)) (k : String) (v : β) :
    List (String × β) :=
  match l with
  | [] => [(k, v)]
  | (k', v') :: rest =>
      if k' = k then (k, v) :: rest else (k', v') :: mapSet rest k v

/-- State touched by the rate-limited health check: the
`lastHealthCheck` map of probe timestamps and the `brutoCache` entries
under keys `"health_" ++ processor`. -/
structure HealthCheckState where
  lastHealthCheck : List (String × Nat)
  cache : List (String × Bool)
deriving DecidableEq, Repr

/-- Result of one health-check call: the boolean returned, the state
afterwards, and whether a real probe (I/O) was performed. -/
structure HealthCheckOutcome where
  result : Bool
  state : HealthCheckState
  probed : Bool
deriving DecidableEq, Repr

/-- Model of the gateway's rate-limited `checkPaymentProcessorHealth`
(`src/unnamed/part_003` lines 829-875).  If the last probe for this
processor is less than 5 s old, return the cached boolean
(`brutoCache.Get(key) == true`, which is `false` when no entry exists)
without probing.  Otherwise stamp `lastHealthCheck[processor] = now`,
perform the probe, cache its boolean, and return it.  The whole body
runs under `healthCheckMutex`, so calls are serialized. -/
def checkPaymentProcessorHealthGW (st : HealthCheckState)
    (processor : String) (now : Nat) (probe : ProbeOutcome) :
    HealthCheckOutcome :=
  let cacheKey := "health_" ++ processor
  let stale : Bool :=
    match st.lastHealthCheck.lookup processor with
    | some lastCheck => if now - lastCheck < 5 then false else true
    | none => true
  if stale then
    let result := probeResult probe
    { result := result
      state :=
        { lastHealthCheck := mapSet st.lastHealthCheck processor now
          cache := mapSet st.cache cacheKey result }
      probed := true }
  else
    { result := st.cache.lookup cacheKey == some true
      state := st
      probed := false }

/-! ## Payment requests and response bodies -/

/-- Decoded POST `/payments` body.  The gateway decodes into the
`PaymentRequest` struct `\x7bCorrelationID string; Amount float64\x7d`;
the orchestrator decodes into `map[string]interface\x7b\x7d` and reads
`paymentReq["correlationId"].(string)` with the failure value ignored,
so a missing or non-string field yields the empty string.  `amount` is
carried as a rational: the handlers only ever compare it with zero. -/
structure PaymentRequest where
  correlationId : String
  amount : Rat
deriving DecidableEq

/-- Body the orchestrator hand-writes for a fresh result
(`src/cmd/payment-orchestrator/main.go` line 335). -/
def paymentBody (r : HTTPPaymentResponse) : String :=
  "\x7b\"id\":\"" ++ r.id ++ "\",\"status\":\"" ++ r.status ++
    "\",\"message\":\"" ++ r.message ++ "\"\x7d"

/-- Hardcoded body the orchestrator writes on a deduplication hit
(line 288): same shape but the fixed status `processed` and the fixed
message `Idempotent: already processed`. -/
def idempotentBody (correlationId : String) : String :=
  "\x7b\"id\":\"" ++ correlationId ++
    "\",\"status\":\"processed\",\"message\":\"Idempotent: already processed\"\x7d"

/-- Body written by `json.NewEncoder(w).Encode(result)` in the gateway
handlers: the same three fields in struct order plus the trailing
newline the encoder appends. -/
def encodedBody (r : HTTPPaymentResponse) : String :=
  paymentBody r ++ "\n"

/-! ## Orchestrator dispatch
Model of `handlePayments` in `src/cmd/payment-orchestrator/main.go`
lines 266-338.  Scheduling of the three strategy goroutines is
abstracted by a `pick` function choosing the first value to arrive on
the result channel from the list of values the strategies would send;
theorems constrain `pick` to choose a member of that list.  The
downstream call of strategy 1 is abstracted by a `RealCallOutcome`
oracle. -/

/-- Outcome of `callPaymentProcessorBRUTO` (lines 182-221): a 2xx from
the processor, or any of the error paths (marshal failure, request
creation failure, transport failure, non-2xx), which differ only in the
`Message` string. -/
inductive RealCallOutcome where
  | success
  | failure (msg : String)
deriving DecidableEq

/-- Value `callPaymentProcessorBRUTO` returns for each outcome: on 2xx
the correlation id, `processed`, and the processor message; on error a
response with the zero-value `ID`, status `error`, and the path's
message. -/
def callPaymentProcessorBRUTO (correlationId : String)
    (o : RealCallOutcome) : HTTPPaymentResponse :=
  match o with
  | .success =>
      { id := correlationId
        status := "processed"
        message := "Payment processed by payment-processor" }
  | .failure msg => { id := "", status := "error", message := msg }

/-- Values the three orchestrator strategies would send on
`resultChan` (lines 296-323): strategy 1 sends the real-call result
only if the health stub says healthy (always) and the result's status
is not `error`; strategies 2 and 3 always send their fixed fallback
results. -/
def orchestratorCandidates (correlationId : String) (o : RealCallOutcome) :
    List HTTPPaymentResponse :=
  (let resp := callPaymentProcessorBRUTO correlationId o
   if checkPaymentProcessorHealth "payment-processor" && (resp.status != "error")
   then [resp] else [])
  ++ [{ id := correlationId, status := "processed", message := "Local fallback" },
      { id := correlationId, status := "processed",
        message := "Instant fallback guarantee" }]

/-- Operations performed on the process-wide circuit breaker, recorded
in order so that theorems can state which mutators a handler invokes. -/
inductive BreakerOp where
  | opCanExecute
  | opRecordSuccess
  | opRecordFailure
deriving DecidableEq, Repr

/-- Process-wide mutable state the orchestrator handler touches: the
`processedPayments` key set and the circuit breaker. -/
structure OrchestratorState where
  processedPayments : List String
  breaker : CircuitBreaker
deriving DecidableEq, Repr

/-- Result of one orchestrator `handlePayments` call: the HTTP response
written, the state afterwards, how many strategy goroutines were
launched, and the breaker operations invoked. -/
structure OrchestratorResult where
  response : HttpResponse
  state : OrchestratorState
  strategiesLaunched : Nat
  breakerOps : List BreakerOp
deriving DecidableEq, Repr

/-- Model of the orchestrator's `handlePayments` (lines 266-338).
Control flow in source order: the `canExecute` gate (503 on refusal),
JSON decoding (400 on failure, `input = none`), the deduplication
lookup (hardcoded idempotent body on a hit), then the three-strategy
race, marking the key processed, writing the winner's body, and
`recordSuccess`.  No field of the decoded request other than
`correlationId` is inspected — in particular `amount` is never
validated.  When the gate call never returns (`canExecute` deadlocks),
neither does the handler: that run is `none` and writes no response. -/
def handlePayments (st : OrchestratorState) (now : Nat)
    (input : Option PaymentRequest) (o : RealCallOutcome)
    (pick : List HTTPPaymentResponse → HTTPPaymentResponse) :
    Option OrchestratorResult :=
  match st.breaker.canExecute now with
  | none => none
  | some gate =>
      if !gate.1 then
        some { response := { status := 503, body := "Service temporarily unavailable\n" }
               state := { st with breaker := gate.2 }
               strategiesLaunched := 0
               breakerOps := [.opCanExecute] }
      else
        match input with
        | none =>
            some { response := { status := 400, body := "Invalid request\n" }
                   state := { st with breaker := gate.2 }
                   strategiesLaunched := 0
                   breakerOps := [.opCanExecute] }
        | some req =>
            let correlationId := req.correlationId
            if st.processedPayments.contains correlationId then
              some { response := { status := 200, body := idempotentBody correlationId }
                     state := { st with breaker := gate.2 }
                     strategiesLaunched := 0
                     breakerOps := [.opCanExecute] }
            else
              let result := pick (orchestratorCandidates correlationId o)
              some { response := { status := 200, body := paymentBody result }
                     state :=
                       { processedPayments := correlationId :: st.processedPayments
                         breaker := gate.2.recordSuccess }
                     strategiesLaunched := 3
                     breakerOps := [.opCanExecute, .opRecordSuccess] }

/-- States the orchestrator's package-wide breaker can be in at the
start of a request.  The orchestrator binary calls only `canExecute`
(the handler gate) and `recordSuccess` (the end of every dispatch);
`recordFailure` is defined but has no call site anywhere in the
orchestrator file, so it contributes no step.  A gate call contributes
a step only when it returns. -/
inductive OrchBreakerReachable : CircuitBreaker → Prop where
  | init : OrchBreakerReachable CircuitBreaker.initial
  | gate (cb : CircuitBreaker) (now : Nat) (b : Bool) (cb' : CircuitBreaker) :
      OrchBreakerReachable cb → cb.canExecute now = some (b, cb') →
      OrchBreakerReachable cb'
  | success (cb : CircuitBreaker) :
      OrchBreakerReachable cb → OrchBreakerReachable cb.recordSuccess

/-! ## Gateway dispatch
Model of `Gateway.handlePayments` in `src/unnamed/part_003` first file,
lines 240-319, together with `Gateway.callPaymentOrchestratorBRUTO`
(lines 162-191), the one strategy in the repository that updates a
circuit breaker on downstream failure. -/

/-- Outcome of the `OrchestratePayment` RPC inside
`callPaymentOrchestratorBRUTO` once a connection exists. -/
inductive RpcOutcome where
  | rpcError
  | rpcSuccess (paymentId : String)
deriving DecidableEq

/-- Model of `Gateway.callPaymentOrchestratorBRUTO` (part_003 lines
162-191): a nil connection from the empty pool returns an error result
without touching the breaker; an RPC error calls `recordFailure` and
returns an error result; an RPC success calls `recordSuccess` and
returns a processed result carrying the RPC's payment id. -/
def callPaymentOrchestratorBRUTO (pool : BRUTOConnectionPool Nat)
    (cb : CircuitBreaker) (now : Nat) (rpc : RpcOutcome) :
    HTTPPaymentResponse × BRUTOConnectionPool Nat × CircuitBreaker ×
      List BreakerOp :=
  match GrpcPool.GetConnection pool with
  | (none, p1) =>
      ({ id := "", status := "error", message := "No connection available" },
        p1, cb, [])
  | (some _conn, p1) =>
      match rpc with
      | .rpcError =>
          ({ id := "", status := "error", message := "Orchestrator failed" },
            p1, cb.gwRecordFailure now, [.opRecordFailure])
      | .rpcSuccess paymentId =>
          ({ id := paymentId, status := "processed",
             message := "Orchestrator processing" },
            p1, cb.gwRecordSuccess, [.opRecordSuccess])

/-- Process-wide state the gateway handler touches. -/
structure GatewayState where
  processedPayments : List String
  breaker : CircuitBreaker
  pool : BRUTOConnectionPool Nat

/-- Result of one gateway `handlePayments` call. -/
structure GatewayResult where
  response : HttpResponse
  state : GatewayState
  strategiesLaunched : Nat
  breakerOps : List BreakerOp

/-- Values the four gateway strategies would send on `resultChan`
(part_003 lines 270-305): strategy 1 sends the orchestrator-call result
only when its status is not `error`; strategies 2-4 always send their
fixed processed results. -/
def gatewayCandidates (correlationId : String)
    (resp1 : HTTPPaymentResponse) : List HTTPPaymentResponse :=
  (if resp1.status != "error" then [resp1] else [])
  ++ [{ id := correlationId, status := "processed", message := "Direct processing" },
      { id := correlationId, status := "processed", message := "Local processing" },
      { id := correlationId, status := "processed", message := "Cache processing" }]

/-- Model of `Gateway.handlePayments` (part_003 lines 240-319).
Control flow in source order: JSON decoding (400 `Invalid JSON`), the
empty-`correlationId` check (400), the non-positive-`amount` check
(400), the deduplication lookup (409 `Payment already processed`), then
the four-strategy race, marking the key processed and encoding the
winner.  Note there is no `canExecute` gate here, and the strategy-1
side effects on pool and breaker happen whether or not strategy 1 wins
the race, because losing goroutines still run to completion. -/
def Gateway.handlePayments (st : GatewayState) (now : Nat)
    (input : Option PaymentRequest) (rpc : RpcOutcome)
    (pick : List HTTPPaymentResponse → HTTPPaymentResponse) :
    GatewayResult :=
  match input with
  | none =>
      { response := { status := 400, body := "Invalid JSON\n" }
        state := st, strategiesLaunched := 0, breakerOps := [] }
  | some req =>
      if req.correlationId = "" then
        { response := { status := 400, body := "correlationId is required\n" }
          state := st, strategiesLaunched := 0, breakerOps := [] }
      else if req.amount ≤ 0 then
        { response := { status := 400, body := "amount must be positive\n" }
          state := st, strategiesLaunched := 0, breakerOps := [] }
      else if st.processedPayments.contains req.correlationId then
        { response := { status := 409, body := "Payment already processed\n" }
          state := st, strategiesLaunched := 0, breakerOps := [] }
      else
        let call := callPaymentOrchestratorBRUTO st.pool st.breaker now rpc
        let result := pick (gatewayCandidates req.correlationId call.1)
        { response := { status := 200, body := encodedBody result }
          state :=
            { processedPayments := req.correlationId :: st.processedPayments
              breaker := call.2.2.1
              pool := call.2.1 }
          strategiesLaunched := 4
          breakerOps := call.2.2.2 }

/-! ## Failover load balancer
Model of `src/cmd/load-balancer/main.go`.  A transport oracle
`transport : String → Option HttpResponse` maps the host placed in the
outgoing request's URL to the response received, `none` standing for a
transport-level failure (`client.Do` returning an error).  Any HTTP
response, error status included, is `some`. -/

/-- Statically configured backend list (lines 19-22). -/
def backends : List String :=
  ["http://api-gateway-1:9999", "http://api-gateway-2:9999"]

/-- Host portion that `url.Parse` extracts from one of the configured
`http://host:port` backend strings: drop the 7-character scheme
marker. -/
def hostOf (rawurl : String) : String :=
  rawurl.drop 7

/-- Model of `getNextBackend` (lines 94-102, both variants): increment
the shared cursor, index modulo the backend count.  The Go `int32`
cursor is modelled as a `Nat`; its wrap-around at 2^31 is out of scope
for the claims. -/
def getNextBackend (current : Nat) : String × Nat :=
  let next := current + 1
  (backends.getD (next % backends.length) "", next)

/-- Model of `(*LoadBalancer).ServeHTTP` (lines 29-92).  The first
attempt goes to the host parsed out of the chosen backend URL by
`http.NewRequest`.  On a transport failure the code fetches the next
backend and assigns `req.URL.Host = backend` — the full URL string,
scheme included, not its host — and retries once; a second transport
failure yields 503.  A backend's HTTP response, whatever its status, is
copied back with no retry.  Returns the response, the cursor
afterwards, and the hosts attempted in order. -/
def LoadBalancer.ServeHTTP (current : Nat)
    (transport : String → Option HttpResponse) :
    HttpResponse × Nat × List String :=
  let pick1 := getNextBackend current
  let host1 := hostOf pick1.1
  match transport host1 with
  | some resp => (resp, pick1.2, [host1])
  | none =>
      let pick2 := getNextBackend pick1.2
      let host2 := pick2.1
      match transport host2 with
      | some resp => (resp, pick2.2, [host1, host2])
      | none =>
          ({ status := 503, body := "Service Unavailable\n" },
            pick2.2, [host1, host2])

/-- Model of the proxy `main` actually installs (lines 114-127): an
`httputil.ReverseProxy` whose `Director` rewrites scheme and host to
the next backend and whose `ErrorHandler` answers the first
transport-level failure with 503 `Service Unavailable`.  There is no
second attempt anywhere in this path. -/
def mainProxyServe (current : Nat)
    (transport : String → Option HttpResponse) :
    HttpResponse × Nat × List String :=
  let pick1 := getNextBackend current
  let host1 := hostOf pick1.1
  match transport host1 with
  | some resp => (resp, pick1.2, [host1])
  | none =>
      ({ status := 503, body := "Service Unavailable" }, pick1.2, [host1])

/-! ## Fan-out dispatch sites
Each record is read off one `resultChan := make(chan ..., cap)`
together with the number of `go func` strategy producers launched on
it and the number of receives the consumer performs (one everywhere:
`result := <-resultChan`). -/

/-- One fan-out race site: producers, channel capacity, consumer
receives. -/
structure DispatchSite where
  strategies : Nat
  channelCapacity : Nat
  consumerReads : Nat
deriving DecidableEq, Repr

/-- Orchestrator `handlePayments`: 3 strategy goroutines (lines
296-323) on `make(chan HTTPPaymentResponse, 2)` (line 293). -/
def orchestratorSite : DispatchSite :=
  { strategies := 3, channelCapacity := 2, consumerReads := 1 }

/-- Gateway `handlePayments` of part_003 first file: 4 goroutines on
capacity 4 (line 271). -/
def gatewayASite : DispatchSite :=
  { strategies := 4, channelCapacity := 4, consumerReads := 1 }

/-- Gateway BRUTO `handlePayments` of part_003 second file: 2
goroutines on capacity 2 (line 956). -/
def gatewayBSite : DispatchSite :=
  { strategies := 2, channelCapacity := 2, consumerReads := 1 }

/-- Gateway `handlePayments` of the second file bundled in
`src/cmd/payment-orchestrator/main.go`: 3 goroutines on capacity 3
(line 632 of that file). -/
def gatewayCSite : DispatchSite :=
  { strategies := 3, channelCapacity := 3, consumerReads := 1 }

/-- All payment fan-out dispatch sites in the repository. -/
def dispatchSites : List DispatchSite :=
  [orchestratorSite, gatewayASite, gatewayBSite, gatewayCSite]

/-- Go buffered-channel fact: a send proceeds with no blocking in
every interleaving exactly when even the worst case — all producers
sending before the consumer's first receive — fits the buffer, i.e.
producers ≤ capacity. -/
def neverBlocks (site : DispatchSite) : Bool :=
  site.strategies ≤ site.channelCapacity

/-- Go buffered-channel fact: every single-shot producer's send
eventually completes (possibly after blocking) exactly when producers ≤
capacity + receives, since each receive frees one buffer slot. -/
def allSendsComplete (site : DispatchSite) : Bool :=
  site.strategies ≤ site.channelCapacity + site.consumerReads

/-! ## Helper lemmas -/

theorem some_beq_true (b : Bool) : ((some b == some true) : Bool) = b := by
  cases b <;> rfl

theorem lookup_mapSet_self {β : Type} (l : List (String × β)) (k : String)
    (v : β) : (mapSet l k v).lookup k = some v := by
  induction l with
  | nil => simp [mapSet, List.lookup]
  | cons p rest ih =>
      obtain ⟨k', v'⟩ := p
      by_cases h : k' = k
      · subst h
        simp [mapSet, List.lookup]
      · have hk : (k == k') = false :=
          beq_eq_false_iff_ne.mpr (fun hh => h hh.symm)
        simp [mapSet, h, List.lookup, ih, hk]

/-- Every value an orchestrator strategy can send carries status
`processed` and the request's correlation id: the real-call strategy
filters its own error results before sending. -/
theorem mem_orchestratorCandidates {correlationId : String}
    {o : RealCallOutcome} {r : HTTPPaymentResponse}
    (h : r ∈ orchestratorCandidates correlationId o) :
    r.status = "processed" ∧ r.id = correlationId := by
  cases o with
  | success =>
      simp [orchestratorCandidates, callPaymentProcessorBRUTO,
        checkPaymentProcessorHealth] at h
      rcases h with h | h | h <;> subst h <;> exact ⟨rfl, rfl⟩
  | failure msg =>
      simp [orchestratorCandidates, callPaymentProcessorBRUTO,
        checkPaymentProcessorHealth] at h
      rcases h with h | h <;> subst h <;> exact ⟨rfl, rfl⟩

/-- When strategy 1's call errored, every gateway candidate is one of
the three fixed processed results. -/
theorem mem_gatewayCandidates_of_error {correlationId : String}
    {resp1 r : HTTPPaymentResponse} (herr : resp1.status = "error")
    (h : r ∈ gatewayCandidates correlationId resp1) :
    r.status = "processed" ∧ r.id = correlationId := by
  simp [gatewayCandidates, herr] at h
  rcases h with h | h | h <;> subst h <;> exact ⟨rfl, rfl⟩

/-- In the orchestrator binary the breaker never leaves `CLOSED`: the
only operations ever invoked are the gate (identity on a closed
breaker) and `recordSuccess` (which forces `CLOSED`). -/
theorem OrchBreakerReachable.state_closed {cb : CircuitBreaker}
    (h : OrchBreakerReachable cb) : cb.state = .CLOSED := by
  induction h with
  | init => rfl
  | gate cb now b cb' _ hgate ih =>
      simp [CircuitBreaker.canExecute, ih] at hgate
      rw [← hgate.2]
      exact ih
  | success cb _ => rfl

theorem foldl_recordFailure_failures (ts : List Nat) (cb : CircuitBreaker) :
    (ts.foldl CircuitBreaker.recordFailure cb).failures =
      cb.failures + ts.length := by
  induction ts generalizing cb with
  | nil => simp
  | cons t rest ih =>
      simp only [List.foldl_cons, ih, CircuitBreaker.recordFailure,
        List.length_cons]
      omega

theorem foldl_recordFailure_lastFailure (ts : List Nat)
    (cb : CircuitBreaker) (h : ts ≠ []) :
    (ts.foldl CircuitBreaker.recordFailure cb).lastFailure =
      ts.getLastD 0 := by
  induction ts generalizing cb with
  | nil => exact absurd rfl h
  | cons t rest ih =>
      cases rest with
      | nil => rfl
      | cons t' rest' =>
          simpa using ih (cb.recordFailure t) (by simp)

theorem foldl_recordFailure_state_open (ts : List Nat)
    (cb : CircuitBreaker) (hopen : cb.state = .OPEN)
    (hge : 10 ≤ cb.failures) :
    (ts.foldl CircuitBreaker.recordFailure cb).state = .OPEN := by
  induction ts generalizing cb with
  | nil => exact hopen
  | cons t rest ih =>
      apply ih
      · simp only [CircuitBreaker.recordFailure]
        rw [if_pos (by omega)]
      · simp only [CircuitBreaker.recordFailure]
        omega

theorem foldl_recordFailure_state_closed (ts : List Nat)
    (cb : CircuitBreaker) (hst : cb.state = .CLOSED)
    (hlt : cb.failures + ts.length < 10) :
    (ts.foldl CircuitBreaker.recordFailure cb).state = .CLOSED := by
  induction ts generalizing cb with
  | nil => exact hst
  | cons t rest ih =>
      have hlen : cb.failures + rest.length + 1 < 10 := by
        simpa [Nat.add_assoc] using hlt
      apply ih
      · simp only [CircuitBreaker.recordFailure]
        rw [if_neg (by omega)]
        exact hst
      · simp only [CircuitBreaker.recordFailure]
        omega

theorem foldl_recordFailure_opens (ts : List Nat) (cb : CircuitBreaker)
    (hst : cb.state = .CLOSED) (hne : ts ≠ [])
    (h10 : 10 ≤ cb.failures + ts.length) :
    (ts.foldl CircuitBreaker.recordFailure cb).state = .OPEN := by
  induction ts generalizing cb with
  | nil => exact absurd rfl hne
  | cons t rest ih =>
      rw [List.foldl_cons]
      by_cases hcross : 10 ≤ cb.failures + 1
      · apply foldl_recordFailure_state_open
        · simp only [CircuitBreaker.recordFailure]
          rw [if_pos hcross]
        · simp only [CircuitBreaker.recordFailure]
          omega
      · cases rest with
        | nil => simp at h10; omega
        | cons t' rest' =>
            apply ih
            · simp only [CircuitBreaker.recordFailure]
              rw [if_neg hcross]
              exact hst
            · simp
            · simp only [CircuitBreaker.recordFailure]
              simp at h10 ⊢
              omega

/-- Breaker after a streak of `recordFailure` calls at the given
instants, starting from a closed breaker with zero failures. -/
def failStreak (l0 : Nat) (ts : List Nat) : CircuitBreaker :=
  ts.foldl CircuitBreaker.recordFailure
    { failures := 0, lastFailure := l0, state := .CLOSED }

/-! ## Claim theorems -/

/-- C3 counterexample: after ten consecutive `recordFailure` calls the
breaker is Open with its last failure at instant 10, but calling
`canExecute` at instant 41 — past the 30 s cooldown, where the claim
says it returns true and transitions to Half-Open — never returns: the
source self-deadlocks acquiring the write lock while holding its own
read lock, modelled as `none`. -/
theorem breaker_cooldown_deadlock_counterexample :
    (failStreak 0 [1, 2, 3, 4, 5, 6, 7, 8, 9, 10]).state = .OPEN ∧
    CircuitBreaker.canExecute (failStreak 0 [1, 2, 3, 4, 5, 6, 7, 8, 9, 10]) 41 = none := by
  decide

/-- C3 amended: starting from Closed, after exactly 10 consecutive
`recordFailure` calls (10 is the orchestrator's configured threshold)
the breaker is Open with `lastFailureTime` stamped at the last call and
`canExecute` returns false at any instant up to 30 s past the last
failure; at any later instant the `canExecute` call never returns at
all (the Lock-under-RLock self-deadlock of main.go lines 151-155)
instead of returning true and moving to Half-Open; fewer than 10
failures leave the breaker Closed with `canExecute` true; and a single
`recordSuccess` from any breaker state zeroes the counter, forces
Closed, and makes `canExecute` return true immediately. -/
theorem breaker_threshold_cooldown_reset
    (l0 : Nat) (ts : List Nat) (hlen : ts.length = 10)
    (short : List Nat) (hshort : short.length < 10)
    (tBefore tAfter tAny : Nat) (cb : CircuitBreaker)
    (hBefore : tBefore ≤ (failStreak l0 ts).lastFailure + 30)
    (hAfter : (failStreak l0 ts).lastFailure + 30 < tAfter) :
    (failStreak l0 ts).state = .OPEN ∧
    (failStreak l0 ts).failures = 10 ∧
    (failStreak l0 ts).lastFailure = ts.getLastD 0 ∧
    (failStreak l0 ts).canExecute tBefore =
      some (false, failStreak l0 ts) ∧
    (failStreak l0 ts).canExecute tAfter = none ∧
    (failStreak l0 short).state = .CLOSED ∧
    (failStreak l0 short).canExecute tAny =
      some (true, failStreak l0 short) ∧
    cb.recordSuccess.failures = 0 ∧
    cb.recordSuccess.state = .CLOSED ∧
    cb.recordSuccess.canExecute tAny =
      some (true, cb.recordSuccess) := by
  have hne : ts ≠ [] := by
    intro h
    rw [h] at hlen
    simp at hlen
  have hopen : (failStreak l0 ts).state = .OPEN :=
    foldl_recordFailure_opens ts _ rfl hne (by simp [hlen])
  have hclosed : (failStreak l0 short).state = .CLOSED :=
    foldl_recordFailure_state_closed short _ rfl (by simpa using hshort)
  have hnb : ¬ 30 < tBefore - (failStreak l0 ts).lastFailure := by omega
  have hna : 30 < tAfter - (failStreak l0 ts).lastFailure := by omega
  refine ⟨hopen, ?_, foldl_recordFailure_lastFailure ts _ hne, ?_, ?_,
    hclosed, ?_, rfl, rfl, rfl⟩
  · rw [failStreak, foldl_recordFailure_failures]
    simp [hlen]
  · simp [CircuitBreaker.canExecute, hopen, hnb]
  · simp [CircuitBreaker.canExecute, hopen, hna]
  · simp [CircuitBreaker.canExecute, hclosed]

/-- C3 witness: the theorem applied to a concrete streak of ten
failures, the instants 42 and 43 around the cooldown boundary of the
last failure at 12, a short streak of two failures, and an arbitrary
open breaker for the reset clause. -/
theorem breaker_threshold_cooldown_reset_witness :
    (failStreak 0 [1, 2, 3, 4, 5, 6, 7, 8, 9, 12]).state = .OPEN :=
  (breaker_threshold_cooldown_reset 0 [1, 2, 3, 4, 5, 6, 7, 8, 9, 12]
    (by decide) [1, 2] (by decide) 42 43 0
    { failures := 7, lastFailure := 5, state := .OPEN }
    (by decide) (by decide)).1

/-- C2 counterexample: the orchestrator dispatch launches 3 strategies
but its shared result channel has capacity only 2, so the channel
capacity is not at least the number of strategies launched. -/
theorem dispatch_capacity_counterexample :
    orchestratorSite ∈ dispatchSites ∧
    ¬ (orchestratorSite.channelCapacity ≥ orchestratorSite.strategies) := by
  decide

/-- C2 amended: at every gateway dispatch site the channel capacity
equals the number of strategies, so no producer ever blocks; the
orchestrator site launches 3 strategies on capacity 2, where a producer
can block until the consumer's single read, but at every site each
producer's single send still eventually completes because strategies ≤
capacity + reads. -/
theorem dispatch_capacity_amended (s : DispatchSite)
    (hs : s ∈ dispatchSites) :
    allSendsComplete s = true ∧
    (s ≠ orchestratorSite → neverBlocks s = true) := by
  fin_cases hs <;> decide

/-- C2 witness: the amended statement applied to the four-strategy
gateway dispatch site. -/
theorem dispatch_capacity_amended_witness :
    allSendsComplete gatewayASite = true ∧
    (gatewayASite ≠ orchestratorSite → neverBlocks gatewayASite = true) :=
  dispatch_capacity_amended gatewayASite (by decide)

/-- C8: every `canExecute` call that returns leaves the record exactly
as it found it — `consecutiveFailures`, `lastFailureTime` and `state`
unchanged.  The `cb.state = HALF_OPEN` write in the source is
unreachable: the only path containing it self-deadlocks on
`cb.mux.Lock()` under the caller's own `cb.mux.RLock()` before reaching
the write, so `canExecute` only ever reads the record, and
`recordSuccess` and `recordFailure` remain its only mutators. -/
theorem canExecute_read_only (cb : CircuitBreaker) (now : Nat)
    (b : Bool) (cb' : CircuitBreaker)
    (h : cb.canExecute now = some (b, cb')) : cb' = cb := by
  unfold CircuitBreaker.canExecute at h
  cases hst : cb.state <;> rw [hst] at h
  · injection h with h1
    injection h1 with _ h2
    exact h2.symm
  · by_cases hc : 30 < now - cb.lastFailure
    · rw [if_pos hc] at h
      cases h
    · rw [if_neg hc] at h
      injection h with h1
      injection h1 with _ h2
      exact h2.symm
  · injection h with h1
    injection h1 with _ h2
    exact h2.symm

/-- C8 witness: a returning call — an Open breaker still inside its
cooldown — hands back the very same record. -/
theorem canExecute_read_only_witness :
    ({ failures := 10, lastFailure := 0, state := .OPEN } : CircuitBreaker) =
      { failures := 10, lastFailure := 0, state := .OPEN } :=
  canExecute_read_only
    { failures := 10, lastFailure := 0, state := .OPEN } 20 false
    { failures := 10, lastFailure := 0, state := .OPEN } (by decide)

/-- C10: from the package initializer (empty slice, cursor 0), a first
`GetConnection` call creates one client and every call in any sequence
returns that same client; the pool holds exactly that one client ever
after (and zero clients before the first call), and the round-robin
cursor stays pinned at 0.  The `rest` list supplies the fresh clients
later calls would have created had they found the pool empty — none is
ever used. -/
theorem pool_single_client_degenerate (Client : Type) (f : Client)
    (rest : List Client) :
    ((BRUTOConnectionPool.initial Client).run []).2.connections = [] ∧
    ((BRUTOConnectionPool.initial Client).run (f :: rest)).1 =
      List.replicate (rest.length + 1) f ∧
    ((BRUTOConnectionPool.initial Client).run (f :: rest)).2.connections
      = [f] ∧
    ((BRUTOConnectionPool.initial Client).run (f :: rest)).2.current = 0 := by
  have hsingle : ∀ (more : List Client),
      BRUTOConnectionPool.run { connections := [f], current := 0 } more =
        (List.replicate more.length f,
          { connections := [f], current := 0 }) := by
    intro more
    induction more with
    | nil => rfl
    | cons g more' ih =>
        simp [BRUTOConnectionPool.run, BRUTOConnectionPool.GetConnection,
          ih, List.replicate_succ]
  have hfirst : (BRUTOConnectionPool.initial Client).run (f :: rest) =
      (f :: (List.replicate rest.length f),
        { connections := [f], current := 0 }) := by
    simp [BRUTOConnectionPool.run, BRUTOConnectionPool.GetConnection,
      BRUTOConnectionPool.initial, hsingle]
  refine ⟨rfl, ?_, ?_, ?_⟩ <;> simp [hfirst, List.replicate_succ]

/-- Scheduler model letting the first-listed candidate win the race
(with a failing downstream this is the `Local fallback` strategy). -/
def pickHead : List HTTPPaymentResponse → HTTPPaymentResponse :=
  fun l => l.headD { id := "", status := "", message := "" }

/-- Orchestrator process state at startup: empty deduplication map and
the initial breaker. -/
def orchInit : OrchestratorState :=
  { processedPayments := [], breaker := CircuitBreaker.initial }

/-- On a closed breaker and an unseen key, the orchestrator handler
takes the dispatch path: gate passes, three strategies launch, the race
winner's body is written with status 200, the key is marked processed,
and the breaker sees `recordSuccess`. -/
theorem handlePayments_dispatch (st : OrchestratorState) (now : Nat)
    (req : PaymentRequest) (o : RealCallOutcome)
    (pick : List HTTPPaymentResponse → HTTPPaymentResponse)
    (hcb : st.breaker.state = .CLOSED)
    (hnew : req.correlationId ∉ st.processedPayments) :
    handlePayments st now (some req) o pick =
      some
        { response :=
            { status := 200
              body := paymentBody (pick (orchestratorCandidates req.correlationId o)) }
          state :=
            { processedPayments := req.correlationId :: st.processedPayments
              breaker := st.breaker.recordSuccess }
          strategiesLaunched := 3
          breakerOps := [.opCanExecute, .opRecordSuccess] } := by
  have hgate : st.breaker.canExecute now = some (true, st.breaker) := by
    simp [CircuitBreaker.canExecute, hcb]
  simp [handlePayments, hgate, hnew]

/-- On a closed breaker and an already-seen key, the orchestrator
handler replays the hardcoded idempotent body and changes nothing. -/
theorem handlePayments_dup (st : OrchestratorState) (now : Nat)
    (req : PaymentRequest) (o : RealCallOutcome)
    (pick : List HTTPPaymentResponse → HTTPPaymentResponse)
    (hcb : st.breaker.state = .CLOSED)
    (hdup : req.correlationId ∈ st.processedPayments) :
    handlePayments st now (some req) o pick =
      some
        { response :=
            { status := 200
              body := idempotentBody req.correlationId }
          state := st
          strategiesLaunched := 0
          breakerOps := [.opCanExecute] } := by
  have hgate : st.breaker.canExecute now = some (true, st.breaker) := by
    simp [CircuitBreaker.canExecute, hcb]
  simp [handlePayments, hgate, hdup]

/-- C1 counterexample: the duplicate response is not byte-for-byte
equal to the first.  With correlation id `a-b-c`, a failing downstream,
and the local-fallback strategy winning the race, the first request
returns the `Local fallback` body and leaves the key recorded; the
replay of the same request on that state returns the fixed
`Idempotent: already processed` body, and the two bodies differ. -/
theorem idempotent_replay_not_byte_equal_counterexample :
    handlePayments orchInit 0 (some { correlationId := "a-b-c", amount := 10 }) (.failure "payment-processor failed") pickHead =
      some
        { response :=
            { status := 200
              body := paymentBody { id := "a-b-c", status := "processed", message := "Local fallback" } }
          state :=
            { processedPayments := ["a-b-c"]
              breaker := CircuitBreaker.initial.recordSuccess }
          strategiesLaunched := 3
          breakerOps := [.opCanExecute, .opRecordSuccess] } ∧
    handlePayments { processedPayments := ["a-b-c"], breaker := CircuitBreaker.initial.recordSuccess } 0 (some { correlationId := "a-b-c", amount := 10 }) (.failure "payment-processor failed") pickHead =
      some
        { response :=
            { status := 200
              body := idempotentBody "a-b-c" }
          state :=
            { processedPayments := ["a-b-c"]
              breaker := CircuitBreaker.initial.recordSuccess }
          strategiesLaunched := 0
          breakerOps := [.opCanExecute] } ∧
    paymentBody { id := "a-b-c", status := "processed", message := "Local fallback" } ≠
      idempotentBody "a-b-c" := by
  decide

/-- C1 amended: the deduplication store records only the key, so a
later request with the same correlation id receives a 200 response with
the same id and status `processed` as the first but the fixed message
`Idempotent: already processed`, regardless of which strategy produced
the first response; every subsequent duplicate receives that same fixed
body, so duplicate responses are byte-for-byte equal to each other but
not in general to the first response. -/
theorem idempotent_replay_fixed_body (st : OrchestratorState)
    (now1 now2 now3 : Nat) (req : PaymentRequest)
    (o1 o2 o3 : RealCallOutcome)
    (pick1 pick2 pick3 : List HTTPPaymentResponse → HTTPPaymentResponse)
    (hcb : OrchBreakerReachable st.breaker)
    (hnew : req.correlationId ∉ st.processedPayments)
    (hmem : pick1 (orchestratorCandidates req.correlationId o1) ∈
      orchestratorCandidates req.correlationId o1) :
    handlePayments st now1 (some req) o1 pick1 =
      some
        { response :=
            { status := 200
              body := paymentBody (pick1 (orchestratorCandidates req.correlationId o1)) }
          state :=
            { processedPayments := req.correlationId :: st.processedPayments
              breaker := st.breaker.recordSuccess }
          strategiesLaunched := 3
          breakerOps := [.opCanExecute, .opRecordSuccess] } ∧
    (pick1 (orchestratorCandidates req.correlationId o1)).id =
      req.correlationId ∧
    (pick1 (orchestratorCandidates req.correlationId o1)).status =
      "processed" ∧
    handlePayments { processedPayments := req.correlationId :: st.processedPayments, breaker := st.breaker.recordSuccess } now2 (some req) o2 pick2 =
      some
        { response :=
            { status := 200
              body := idempotentBody req.correlationId }
          state :=
            { processedPayments := req.correlationId :: st.processedPayments
              breaker := st.breaker.recordSuccess }
          strategiesLaunched := 0
          breakerOps := [.opCanExecute] } ∧
    handlePayments { processedPayments := req.correlationId :: st.processedPayments, breaker := st.breaker.recordSuccess } now3 (some req) o3 pick3 =
      some
        { response :=
            { status := 200
              body := idempotentBody req.correlationId }
          state :=
            { processedPayments := req.correlationId :: st.processedPayments
              breaker := st.breaker.recordSuccess }
          strategiesLaunched := 0
          breakerOps := [.opCanExecute] } := by
  obtain ⟨hstat, hid⟩ := mem_orchestratorCandidates hmem
  have hcb1 : ({ processedPayments := req.correlationId :: st.processedPayments, breaker := st.breaker.recordSuccess } : OrchestratorState).breaker.state = .CLOSED := rfl
  have hdup1 : req.correlationId ∈ ({ processedPayments := req.correlationId :: st.processedPayments, breaker := st.breaker.recordSuccess } : OrchestratorState).processedPayments :=
    List.mem_cons_self _ _
  exact ⟨handlePayments_dispatch st now1 req o1 pick1 hcb.state_closed hnew,
    hid, hstat,
    handlePayments_dup _ now2 req o2 pick2 hcb1 hdup1,
    handlePayments_dup _ now3 req o3 pick3 hcb1 hdup1⟩

/-- C1 witness: concrete three-request run on the same correlation id,
with a failing downstream and the local fallback winning the first
race. -/
theorem idempotent_replay_fixed_body_witness :
    (pickHead (orchestratorCandidates "a-b-c" (.failure "payment-processor failed"))).id = "a-b-c" :=
  (idempotent_replay_fixed_body orchInit 3 4 5
    { correlationId := "a-b-c", amount := 10 }
    (.failure "payment-processor failed")
    (.failure "payment-processor failed")
    (.failure "payment-processor failed")
    pickHead pickHead pickHead
    OrchBreakerReachable.init (by decide) (by decide)).2.1

/-- C5: on every breaker state the orchestrator binary can actually
reach (it never calls `recordFailure`, so the breaker never opens), the
`canExecute` gate call returns true leaving the breaker unchanged, and
a valid unseen request receives a 200 response whose winning result —
whichever strategy produced it, even when the real-call strategy
abstains because its downstream call failed — carries status
`processed`; the two local fallback strategies guarantee the race
always has at least two candidates. -/
theorem fallback_always_processed (st : OrchestratorState) (now : Nat)
    (req : PaymentRequest) (o : RealCallOutcome)
    (pick : List HTTPPaymentResponse → HTTPPaymentResponse)
    (hcb : OrchBreakerReachable st.breaker)
    (hnew : req.correlationId ∉ st.processedPayments)
    (hmem : pick (orchestratorCandidates req.correlationId o) ∈
      orchestratorCandidates req.correlationId o) :
    st.breaker.canExecute now = some (true, st.breaker) ∧
    handlePayments st now (some req) o pick =
      some
        { response :=
            { status := 200
              body := paymentBody (pick (orchestratorCandidates req.correlationId o)) }
          state :=
            { processedPayments := req.correlationId :: st.processedPayments
              breaker := st.breaker.recordSuccess }
          strategiesLaunched := 3
          breakerOps := [.opCanExecute, .opRecordSuccess] } ∧
    (pick (orchestratorCandidates req.correlationId o)).status =
      "processed" ∧
    2 ≤ (orchestratorCandidates req.correlationId o).length := by
  refine ⟨?_, ?_, (mem_orchestratorCandidates hmem).1, ?_⟩
  · simp [CircuitBreaker.canExecute, hcb.state_closed]
  · exact handlePayments_dispatch st now req o pick hcb.state_closed hnew
  · cases o <;>
      simp [orchestratorCandidates, callPaymentProcessorBRUTO,
        checkPaymentProcessorHealth]

/-- C5 witness: the initial breaker, an unseen id, a failing
downstream, and the local fallback winning. -/
theorem fallback_always_processed_witness :
    orchInit.breaker.canExecute 9 = some (true, orchInit.breaker) :=
  (fallback_always_processed orchInit 9
    { correlationId := "c-5", amount := 1 }
    (.failure "payment-processor failed") pickHead
    OrchBreakerReachable.init (by decide) (by decide)).1

/-- C6 counterexample: the orchestrator's `handlePayments` performs no
field validation — a decodable request with an empty correlation id and
amount −5 is not rejected with a 4xx: it launches all three strategies,
writes the empty key into the deduplication store, and answers 200. -/
theorem orchestrator_accepts_invalid_input_counterexample :
    handlePayments orchInit 0 (some { correlationId := "", amount := -5 }) (.failure "payment-processor failed") pickHead =
      some
        { response :=
            { status := 200
              body := paymentBody { id := "", status := "processed", message := "Local fallback" } }
          state :=
            { processedPayments := [""]
              breaker := CircuitBreaker.initial.recordSuccess }
          strategiesLaunched := 3
          breakerOps := [.opCanExecute, .opRecordSuccess] } := by
  decide

/-- C6 amended: the gateway's `handlePayments` rejects malformed JSON,
a missing or empty correlation id, and a non-positive amount with 400
before any dispatch work (no strategies launched, state untouched); the
orchestrator's `handlePayments`, however, validates nothing beyond JSON
decodability and dispatches any decodable request — empty correlation
id and non-positive amount included — with a 200 response. -/
theorem input_validation_amended
    (gst : GatewayState) (gnow : Nat) (rpc : RpcOutcome)
    (gpick : List HTTPPaymentResponse → HTTPPaymentResponse)
    (emptyReq nonposReq : PaymentRequest)
    (hempty : emptyReq.correlationId = "")
    (hnonempty : nonposReq.correlationId ≠ "")
    (hnonpos : nonposReq.amount ≤ 0)
    (ost : OrchestratorState) (onow : Nat) (oreq : PaymentRequest)
    (o : RealCallOutcome)
    (opick : List HTTPPaymentResponse → HTTPPaymentResponse)
    (hcb : OrchBreakerReachable ost.breaker)
    (hnew : oreq.correlationId ∉ ost.processedPayments) :
    (Gateway.handlePayments gst gnow none rpc gpick =
      { response :=
          { status := 400
            body := "Invalid JSON\n" }
        state := gst
        strategiesLaunched := 0
        breakerOps := [] }) ∧
    (Gateway.handlePayments gst gnow (some emptyReq) rpc gpick =
      { response :=
          { status := 400
            body := "correlationId is required\n" }
        state := gst
        strategiesLaunched := 0
        breakerOps := [] }) ∧
    (Gateway.handlePayments gst gnow (some nonposReq) rpc gpick =
      { response :=
          { status := 400
            body := "amount must be positive\n" }
        state := gst
        strategiesLaunched := 0
        breakerOps := [] }) ∧
    handlePayments ost onow (some oreq) o opick =
      some
        { response :=
            { status := 200
              body := paymentBody (opick (orchestratorCandidates oreq.correlationId o)) }
          state :=
            { processedPayments := oreq.correlationId :: ost.processedPayments
              breaker := ost.breaker.recordSuccess }
          strategiesLaunched := 3
          breakerOps := [.opCanExecute, .opRecordSuccess] } := by
  refine ⟨?_, ?_, ?_, ?_⟩
  · simp [Gateway.handlePayments]
  · simp [Gateway.handlePayments, hempty]
  · simp [Gateway.handlePayments, hnonempty, hnonpos]
  · exact handlePayments_dispatch ost onow oreq o opick
      hcb.state_closed hnew

/-- C6 witness: concrete instantiation in which the orchestrator
accepts the very kind of request (empty id, negative amount) the
gateway rejects. -/
theorem input_validation_amended_witness :
    handlePayments orchInit 0 (some { correlationId := "", amount := -5 }) (.failure "payment-processor failed") pickHead =
      some
        { response :=
            { status := 200
              body := paymentBody (pickHead (orchestratorCandidates "" (.failure "payment-processor failed"))) }
          state :=
            { processedPayments := [""]
              breaker := CircuitBreaker.initial.recordSuccess }
          strategiesLaunched := 3
          breakerOps := [.opCanExecute, .opRecordSuccess] } :=
  (input_validation_amended
    { processedPayments := []
      breaker := CircuitBreaker.initial
      pool := { connections := [], current := 0 } }
    0 .rpcError pickHead
    { correlationId := "", amount := 5 }
    { correlationId := "x", amount := -3 }
    rfl (by decide) (by decide)
    orchInit 0 { correlationId := "", amount := -5 }
    (.failure "payment-processor failed") pickHead
    OrchBreakerReachable.init (by decide)).2.2.2

/-- C7 counterexample: a dispatch whose real-call strategy fails leaves
the orchestrator's circuit breaker untouched by `recordFailure` — the
handler's breaker operations are only the gate and the final
`recordSuccess`, and the failure count ends at 0 instead of rising. -/
theorem orchestrator_no_recordFailure_counterexample :
    handlePayments orchInit 0 (some { correlationId := "c-7", amount := 10 }) (.failure "payment-processor failed") pickHead =
      some
        { response :=
            { status := 200
              body := paymentBody { id := "c-7", status := "processed", message := "Local fallback" } }
          state :=
            { processedPayments := ["c-7"]
              breaker := CircuitBreaker.initial.recordSuccess }
          strategiesLaunched := 3
          breakerOps := [.opCanExecute, .opRecordSuccess] } ∧
    BreakerOp.opRecordFailure ∉
      [BreakerOp.opCanExecute, BreakerOp.opRecordSuccess] ∧
    CircuitBreaker.initial.recordSuccess.failures = 0 := by
  decide

/-- C7 amended: on a failed downstream call the real-call strategy
delivers nothing on the channel, so the committed result always carries
status `processed` (true in orchestrator and gateway alike); the
gateway's strategy records the failure on its circuit breaker
(`recordFailure`, failure count +1), but no returning run of the
orchestrator's handler ever performs `recordFailure`, so its breaker is
never told about downstream failures. -/
theorem errored_strategy_invisible_amended
    (ost : OrchestratorState) (onow : Nat) (input : Option PaymentRequest)
    (o : RealCallOutcome) (oreq : PaymentRequest)
    (opick : List HTTPPaymentResponse → HTTPPaymentResponse)
    (hmem : opick (orchestratorCandidates oreq.correlationId o) ∈
      orchestratorCandidates oreq.correlationId o)
    (gst : GatewayState) (gnow : Nat) (greq : PaymentRequest)
    (gpick : List HTTPPaymentResponse → HTTPPaymentResponse)
    (hpool : gst.pool.connections.isEmpty = false)
    (hgcid : ¬ greq.correlationId = "")
    (hgamt : ¬ greq.amount ≤ 0)
    (hgnew : greq.correlationId ∉ gst.processedPayments)
    (hgmem : gpick (gatewayCandidates greq.correlationId
        (callPaymentOrchestratorBRUTO gst.pool gst.breaker gnow .rpcError).1) ∈
      gatewayCandidates greq.correlationId
        (callPaymentOrchestratorBRUTO gst.pool gst.breaker gnow .rpcError).1) :
    (∀ r, handlePayments ost onow input o opick = some r →
      BreakerOp.opRecordFailure ∉ r.breakerOps) ∧
    (opick (orchestratorCandidates oreq.correlationId o)).status =
      "processed" ∧
    (Gateway.handlePayments gst gnow (some greq) .rpcError gpick).breakerOps
      = [.opRecordFailure] ∧
    (Gateway.handlePayments gst gnow (some greq) .rpcError gpick).state.breaker.failures
      = gst.breaker.failures + 1 ∧
    (gpick (gatewayCandidates greq.correlationId
      (callPaymentOrchestratorBRUTO gst.pool gst.breaker gnow .rpcError).1)).status
      = "processed" := by
  have herr : (callPaymentOrchestratorBRUTO gst.pool gst.breaker gnow
      .rpcError).1.status = "error" := by
    simp [callPaymentOrchestratorBRUTO, GrpcPool.GetConnection, hpool]
  refine ⟨?_, (mem_orchestratorCandidates hmem).1, ?_, ?_,
    (mem_gatewayCandidates_of_error herr hgmem).1⟩
  · intro r hr
    unfold handlePayments at hr
    cases hg : ost.breaker.canExecute onow with
    | none =>
        rw [hg] at hr
        cases hr
    | some gate =>
        rw [hg] at hr
        dsimp only at hr
        split at hr
        · injection hr with h
          subst h
          simp
        · split at hr
          · injection hr with h
            subst h
            simp
          · split at hr
            · injection hr with h
              subst h
              simp
            · injection hr with h
              subst h
              simp
  · simp [Gateway.handlePayments, hgcid, hgamt, hgnew,
      callPaymentOrchestratorBRUTO, GrpcPool.GetConnection, hpool]
  · simp [Gateway.handlePayments, hgcid, hgamt, hgnew,
      callPaymentOrchestratorBRUTO, GrpcPool.GetConnection, hpool,
      CircuitBreaker.gwRecordFailure]

/-- C7 witness: a failing orchestrator dispatch next to a gateway
dispatch with one pooled connection and a failing RPC. -/
theorem errored_strategy_invisible_amended_witness :
    (Gateway.handlePayments { processedPayments := [], breaker := CircuitBreaker.initial, pool := { connections := [5], current := 0 } } 0 (some { correlationId := "g-7", amount := 10 }) .rpcError pickHead).state.breaker.failures = 1 :=
  (errored_strategy_invisible_amended orchInit 0
    (some { correlationId := "c-7", amount := 10 })
    (.failure "payment-processor failed")
    { correlationId := "c-7", amount := 10 } pickHead (by decide)
    { processedPayments := []
      breaker := CircuitBreaker.initial
      pool := { connections := [5], current := 0 } }
    0 { correlationId := "g-7", amount := 10 } pickHead
    (by decide) (by decide) (by decide) (by decide) (by decide)).2.2.2.1

/-- C4 counterexample: the proxy `main` installs performs no failover.
With cursor 0 the first pick is backend #2 (`api-gateway-2:9999`); when
the transport to it fails while backend #1 would answer 200, the proxy
returns 503 after a single attempt instead of retrying and returning
backend #1's response. -/
theorem proxy_no_retry_counterexample :
    (mainProxyServe 0 (fun h => if h = "api-gateway-1:9999" then some { status := 200, body := "ok" } else none)).1 = { status := 503, body := "Service Unavailable" } ∧
    (mainProxyServe 0 (fun h => if h = "api-gateway-1:9999" then some { status := 200, body := "ok" } else none)).2.2 = ["api-gateway-2:9999"] ∧
    (fun h => if h = "api-gateway-1:9999" then some ({ status := 200, body := "ok" } : HttpResponse) else none) "api-gateway-1:9999" = some ({ status := 200, body := "ok" } : HttpResponse) := by
  decide

/-- C4 amended: the proxy installed in `main` never retries — it
forwards whatever HTTP response its single attempt yields (error
statuses included) and answers the first transport-level failure with
503; the unused `LoadBalancer.ServeHTTP` handler does make exactly one
more attempt after a transport failure and returns 503 only if that
second attempt also fails at the transport level, never retrying on a
valid HTTP error status, but its retry addresses the full next-backend
URL string (scheme included) rather than that backend's host. -/
theorem proxy_failover_amended (cur : Nat)
    (transport : String → Option HttpResponse) :
    (∀ r, transport (hostOf (getNextBackend cur).1) = some r →
      mainProxyServe cur transport =
        (r, (getNextBackend cur).2, [hostOf (getNextBackend cur).1]) ∧
      LoadBalancer.ServeHTTP cur transport =
        (r, (getNextBackend cur).2, [hostOf (getNextBackend cur).1])) ∧
    (transport (hostOf (getNextBackend cur).1) = none →
      (mainProxyServe cur transport).1 =
        { status := 503, body := "Service Unavailable" } ∧
      (mainProxyServe cur transport).2.2 =
        [hostOf (getNextBackend cur).1] ∧
      (LoadBalancer.ServeHTTP cur transport).2.2 =
        [hostOf (getNextBackend cur).1,
          (getNextBackend (getNextBackend cur).2).1] ∧
      (∀ r, transport ((getNextBackend (getNextBackend cur).2).1) = some r →
        (LoadBalancer.ServeHTTP cur transport).1 = r) ∧
      (transport ((getNextBackend (getNextBackend cur).2).1) = none →
        (LoadBalancer.ServeHTTP cur transport).1 =
          { status := 503, body := "Service Unavailable\n" })) := by
  constructor
  · intro r hr
    constructor <;> simp [mainProxyServe, LoadBalancer.ServeHTTP, hr]
  · intro hfail
    refine ⟨?_, ?_, ?_, ?_, ?_⟩
    · simp [mainProxyServe, hfail]
    · simp [mainProxyServe, hfail]
    · cases h2 : transport ((getNextBackend (getNextBackend cur).2).1) <;>
        simp [LoadBalancer.ServeHTTP, hfail, h2]
    · intro r hr
      simp [LoadBalancer.ServeHTTP, hfail, hr]
    · intro h2
      simp [LoadBalancer.ServeHTTP, hfail, h2]

/-- C4 witness: with every transport attempt failing, the dead-code
handler answers 503 after its two attempts. -/
theorem proxy_failover_amended_witness :
    (LoadBalancer.ServeHTTP 0 (fun _ => none)).1 =
      { status := 503, body := "Service Unavailable\n" } :=
  ((proxy_failover_amended 0 (fun _ => none)).2 rfl).2.2.2.2 rfl

/-- After a probe stamped the timestamp and the cache for `processor`,
any call within the rate-limit window returns the cached boolean
without probing and leaves the state unchanged. -/
theorem checkHealth_cached_after_probe (st' : HealthCheckState)
    (processor : String) (t1 t2 : Nat) (r1 : Bool) (p2 : ProbeOutcome)
    (hlast : st'.lastHealthCheck.lookup processor = some t1)
    (hcache : st'.cache.lookup ("health_" ++ processor) = some r1)
    (hwin : t2 - t1 < 5) :
    checkPaymentProcessorHealthGW st' processor t2 p2 =
      { result := r1, state := st', probed := false } := by
  simp [checkPaymentProcessorHealthGW, hlast, hwin, hcache, some_beq_true]

/-- When no fresh probe timestamp exists, the health check probes:
it stamps the timestamp, caches the probe's boolean, and returns it. -/
theorem checkHealth_probe_shape (st : HealthCheckState)
    (processor : String) (t : Nat) (p : ProbeOutcome)
    (hstale : ∀ lc, st.lastHealthCheck.lookup processor = some lc →
      ¬ t - lc < 5) :
    checkPaymentProcessorHealthGW st processor t p =
      { result := probeResult p
        state :=
          { lastHealthCheck := mapSet st.lastHealthCheck processor t
            cache := mapSet st.cache ("health_" ++ processor) (probeResult p) }
        probed := true } := by
  cases hl : st.lastHealthCheck.lookup processor with
  | none => simp [checkPaymentProcessorHealthGW, hl]
  | some lc => simp [checkPaymentProcessorHealthGW, hl, hstale lc hl]

/-- A second call within the window of a call that probed is served
from the cache: same boolean, no probe, state unchanged. -/
theorem checkHealth_second_call_cached (st : HealthCheckState)
    (processor : String) (t1 t2 : Nat) (p1 p2 : ProbeOutcome)
    (hshape : checkPaymentProcessorHealthGW st processor t1 p1 =
      { result := probeResult p1
        state :=
          { lastHealthCheck := mapSet st.lastHealthCheck processor t1
            cache := mapSet st.cache ("health_" ++ processor) (probeResult p1) }
        probed := true })
    (hwin : t2 - t1 < 5) :
    checkPaymentProcessorHealthGW
        (checkPaymentProcessorHealthGW st processor t1 p1).state
        processor t2 p2 =
      { result := (checkPaymentProcessorHealthGW st processor t1 p1).result
        state := (checkPaymentProcessorHealthGW st processor t1 p1).state
        probed := false } := by
  rw [hshape]
  exact checkHealth_cached_after_probe _ processor t1 t2 (probeResult p1)
    p2 (lookup_mapSet_self _ _ _) (lookup_mapSet_self _ _ _) hwin

/-- C9: two health-check calls for the same processor within one
rate-limit window (5 s) perform at most one real probe between them,
and when the first call did probe, the second returns the first call's
boolean from the cache without any probe I/O; the orchestrator's own
`checkPaymentProcessorHealth` performs no probe at all — it is the
constant `true`. -/
theorem health_probe_rate_limited (st : HealthCheckState)
    (processor : String) (t1 t2 : Nat) (p1 p2 : ProbeOutcome)
    (h12 : t1 ≤ t2) (hwin : t2 < t1 + 5) :
    ¬ ((checkPaymentProcessorHealthGW st processor t1 p1).probed = true ∧
      (checkPaymentProcessorHealthGW
        (checkPaymentProcessorHealthGW st processor t1 p1).state
        processor t2 p2).probed = true) ∧
    ((checkPaymentProcessorHealthGW st processor t1 p1).probed = true →
      (checkPaymentProcessorHealthGW
        (checkPaymentProcessorHealthGW st processor t1 p1).state
        processor t2 p2).probed = false ∧
      (checkPaymentProcessorHealthGW
        (checkPaymentProcessorHealthGW st processor t1 p1).state
        processor t2 p2).result =
        (checkPaymentProcessorHealthGW st processor t1 p1).result) ∧
    checkPaymentProcessorHealth processor = true := by
  have hwin' : t2 - t1 < 5 := by omega
  cases hl : st.lastHealthCheck.lookup processor with
  | none =>
      have hc1 := checkHealth_probe_shape st processor t1 p1
        (by intro lc hlc; rw [hl] at hlc; cases hlc)
      have hc2 := checkHealth_second_call_cached st processor t1 t2 p1 p2
        hc1 hwin'
      refine ⟨?_, ?_, rfl⟩
      · rw [hc2]
        simp
      · intro _
        rw [hc2]
        exact ⟨rfl, rfl⟩
  | some lc =>
      by_cases hfresh : t1 - lc < 5
      · have hc1 : checkPaymentProcessorHealthGW st processor t1 p1 =
            { result := st.cache.lookup ("health_" ++ processor) == some true
              state := st
              probed := false } := by
          simp [checkPaymentProcessorHealthGW, hl, hfresh]
        refine ⟨?_, ?_, rfl⟩
        · rw [hc1]
          simp
        · intro hp
          rw [hc1] at hp
          simp at hp
      · have hc1 := checkHealth_probe_shape st processor t1 p1
          (by intro lc' hlc'; rw [hl] at hlc'; injection hlc' with h
              subst h; exact hfresh)
        have hc2 := checkHealth_second_call_cached st processor t1 t2 p1
          p2 hc1 hwin'
        refine ⟨?_, ?_, rfl⟩
        · rw [hc2]
          simp
        · intro _
          rw [hc2]
          exact ⟨rfl, rfl⟩

/-- C9 witness: a first call at instant 0 that probes (healthy
downstream) and a second call at instant 4, inside the window. -/
theorem health_probe_rate_limited_witness :
    ¬ ((checkPaymentProcessorHealthGW { lastHealthCheck := [], cache := [] } "payment-processor" 0 (.response 200 (some false))).probed = true ∧
      (checkPaymentProcessorHealthGW (checkPaymentProcessorHealthGW { lastHealthCheck := [], cache := [] } "payment-processor" 0 (.response 200 (some false))).state "payment-processor" 4 (.response 200 (some true))).probed = true) :=
  (health_probe_rate_limited { lastHealthCheck := [], cache := [] }
    "payment-processor" 0 4 (.response 200 (some false))
    (.response 200 (some true)) (by decide) (by decide)).1

end Rinha
